import Mathlib

/-!
Verification of the challenge-orchestration core of the repository:
`challenges/base_challenge.py` (the per-challenge runner `execute`),
`challenge_manager.py` (registry, `run_challenge`, prerequisites, logs,
overall progress) and `challenge_system.py` (the orchestrator: sequence
execution, stop, reset, the event queue).

The embedding is shallow: each Python method becomes a Lean function over
an explicit state record.  Wall-clock fields (`last_run`,
`execution_time`, timestamps) and logging side effects to the Python
`logging` module are not modelled; the in-memory `challenge_logs` list and
the `event_queue` are.  A challenge subclass is characterised by the data
`execute` consumes from it: the list returned by `get_steps` together
with the behaviour of `execute_step` at each index (returns True, returns
False, or raises), the result of `pre_challenge_setup`, and whether
`post_challenge_cleanup` raises.
-/

namespace AutomationToolkit

/-- Challenge status strings of `base_challenge.py`:
"not_started", "running", "completed", "failed", "error". -/
inductive Status where
  | not_started
  | running
  | completed
  | failed
  | error
deriving DecidableEq, Repr

/-- Behaviour of `execute_step(step_num)` at one index: return True,
return False, or raise an exception carrying message `msg`. -/
inductive StepBeh where
  | retTrue
  | retFalse
  | raises (msg : String)
deriving DecidableEq, Repr

/-- One entry of the list returned by `get_steps` (the step description
string) together with the behaviour of `execute_step` at that index. -/
structure StepSpec where
  desc : String
  beh : StepBeh
deriving DecidableEq, Repr

/-- An observable instant of the mutable challenge state inside the step
loop of `execute`: `before = true` is the instant just after
`self.current_step = step_num + 1` (the step function is about to run or
running), `before = false` is the instant just after
`self.progress = self.current_step / total_steps` on step success. -/
structure Snapshot where
  before : Bool
  cs : Nat
  prog : Rat
deriving DecidableEq, Repr

/-- The mutable state of a `BaseChallenge` instance, plus the behavioural
data of the subclass (`stepsSpec`, `preSetup`, `cleanup`) that `execute`
consumes.  `steps_len` models `len(self.steps)`. -/
structure Challenge where
  level : Nat
  prerequisites : List Nat
  preSetup : Bool
  cleanup : Option String
  stepsSpec : List StepSpec
  status : Status
  progress : Rat
  current_step : Nat
  steps_len : Nat
  success_count : Nat
  failure_count : Nat
  last_error : Option String
deriving DecidableEq, Repr

/-- `BaseChallenge.reset`: status to not_started, progress 0,
current_step 0, last_error cleared; counters untouched. -/
def resetChallenge (c : Challenge) : Challenge :=
  { c with status := .not_started, progress := 0, current_step := 0,
           last_error := none }

/-- The exception message raised by `execute` when `execute_step` returns
False: "Step {k} failed: {description}". -/
def stepFailMsg (stepNum : Nat) (desc : String) : String :=
  "Step " ++ toString stepNum ++ " failed: " ++ desc

/-- Result of the step loop of `execute`: the exception message if a step
failed or raised, the challenge state when the loop ended, how many step
functions were invoked, and the observable snapshots in loop order. -/
structure LoopOut where
  err : Option String
  c : Challenge
  invoked : Nat
  snaps : List Snapshot
deriving DecidableEq, Repr

/-- The `for step_num in range(total_steps)` loop of
`BaseChallenge.execute`: set `current_step := idx + 1`, invoke the step;
a False return raises `stepFailMsg`, a raise propagates; on success set
`progress := current_step / total`.  `idx` is the number of steps already
done, so the loop is entered with `current_step = idx`. -/
def execLoop (total : Nat) (c : Challenge) (idx : Nat) :
    List StepSpec → LoopOut
  | [] => { err := none, c := c, invoked := 0, snaps := [] }
  | s :: rest =>
    let stepNum := idx + 1
    let c1 := { c with current_step := stepNum }
    let preSnap : Snapshot :=
      { before := true, cs := c1.current_step, prog := c1.progress }
    match s.beh with
    | .raises msg =>
        { err := some msg, c := c1, invoked := 1, snaps := [preSnap] }
    | .retFalse =>
        { err := some (stepFailMsg stepNum s.desc), c := c1, invoked := 1,
          snaps := [preSnap] }
    | .retTrue =>
        let c2 := { c1 with progress := (stepNum : Rat) / (total : Rat) }
        let postSnap : Snapshot :=
          { before := false, cs := c2.current_step, prog := c2.progress }
        let r := execLoop total c2 stepNum rest
        { err := r.err, c := r.c, invoked := r.invoked + 1,
          snaps := preSnap :: postSnap :: r.snaps }

/-- Result of `BaseChallenge.execute`: the boolean return value, the final
challenge state, the number of step invocations, whether
`post_challenge_cleanup` was invoked, and the observable loop snapshots. -/
structure ExecResult where
  success : Bool
  c : Challenge
  invoked : Nat
  cleanupInvoked : Bool
  snaps : List Snapshot
deriving DecidableEq, Repr

/-- `BaseChallenge.execute`: set status running, reset
progress/current_step/last_error, fetch the steps; a pre-setup failure
raises, caught by the outer handler (status failed, cleanup attempted);
then the step loop; any exception from it is caught by the outer handler
(status failed, `last_error` recorded, cleanup attempted, return False);
otherwise cleanup runs (its raise is caught by the same outer handler and
downgrades the run to failed), status completed, progress 1.0,
return True. -/
def execute (ch : Challenge) : ExecResult :=
  let total := ch.stepsSpec.length
  let c0 := { ch with status := .running, progress := 0, current_step := 0,
                      last_error := none, steps_len := total }
  cond ch.preSetup
    (let r := execLoop total c0 0 ch.stepsSpec
    match r.err with
    | some msg =>
        { success := false,
          c := { r.c with status := .failed, last_error := some msg },
          invoked := r.invoked, cleanupInvoked := true, snaps := r.snaps }
    | none =>
        match ch.cleanup with
        | some msg =>
            { success := false,
              c := { r.c with status := .failed, last_error := some msg },
              invoked := r.invoked, cleanupInvoked := true, snaps := r.snaps }
        | none =>
            { success := true,
              c := { r.c with status := .completed, progress := 1 },
              invoked := r.invoked, cleanupInvoked := true, snaps := r.snaps })
    { success := false,
      c := { c0 with status := .failed,
                     last_error := some "Pre-challenge setup failed" },
      invoked := 0, cleanupInvoked := true, snaps := [] }

/-- A fresh challenge as `BaseChallenge.__init__` builds it, with the
subclass behaviour data supplied. -/
def mkChallenge (level : Nat) (prereqs : List Nat)
    (specs : List StepSpec) : Challenge :=
  { level := level, prerequisites := prereqs, preSetup := true,
    cleanup := none, stepsSpec := specs, status := .not_started,
    progress := 0, current_step := 0, steps_len := 0,
    success_count := 0, failure_count := 0, last_error := none }

/-- One entry of `ChallengeManager.challenge_logs` (the wall-clock
timestamp is not modelled). -/
structure LogEntry where
  level : Nat
  event_type : String
  message : String
deriving DecidableEq, Repr

/-- The state of a `ChallengeManager`: the challenge dict keyed by level
(an association list) and the bounded challenge log. -/
structure Manager where
  challenges : List (Nat × Challenge)
  challenge_logs : List LogEntry
deriving DecidableEq, Repr

/-- `self.challenges[level]` lookup (`level in self.challenges` is
`lookupChallenge m level ≠ none`). -/
def lookupChallenge : List (Nat × Challenge) → Nat → Option Challenge
  | [], _ => none
  | (l, c) :: rest, lvl => if l = lvl then some c else lookupChallenge rest lvl

/-- In-place mutation of the challenge object stored at `level`. -/
def updateChallenge (m : Manager) (lvl : Nat) (c : Challenge) : Manager :=
  { m with challenges :=
      m.challenges.map (fun p => if p.1 = lvl then (lvl, c) else p) }

/-- `ChallengeManager._log_challenge_event`: append the entry, then keep
only the last 1000 entries (`self.challenge_logs[-1000:]`). -/
def logChallengeEvent (m : Manager) (lvl : Nat) (etype msg : String) :
    Manager :=
  let l := m.challenge_logs ++ [⟨lvl, etype, msg⟩]
  { m with challenge_logs :=
      if l.length > 1000 then l.drop (l.length - 1000) else l }

/-- `ChallengeManager._check_prerequisites`: every prerequisite level must
exist in the dict and have status "completed". -/
def checkPrerequisites (m : Manager) (c : Challenge) : Bool :=
  c.prerequisites.all (fun p =>
    match lookupChallenge m.challenges p with
    | none => false
    | some pc => pc.status = .completed)

/-- The message of the exception raised by `run_challenge` on unmet
prerequisites. -/
def prereqMsg : String := "Prerequisites not met for this challenge"

deriving instance DecidableEq for Except

/-- Result of `ChallengeManager.run_challenge`: `.error msg` when the call
raises (a missing level or the prerequisites exception, re-raised by the
handler), `.ok success` for a normal return; plus the updated manager and
the number of step functions that were invoked. -/
structure RunOut where
  result : Except String Bool
  m : Manager
  invoked : Nat
deriving DecidableEq, Repr

/-- `ChallengeManager.run_challenge`: missing level raises ValueError;
log "started"; unmet prerequisites raise, and the `except` block then
increments `failure_count`, sets status "error", records `last_error`,
logs the message, and re-raises; otherwise `execute()` runs and the
statistics/status/log updates follow its boolean result.
(`execution_time`/`last_run` are wall-clock and not modelled.) -/
def run_challenge (m : Manager) (lvl : Nat) : RunOut :=
  match lookupChallenge m.challenges lvl with
  | none =>
      { result := .error ("Challenge level " ++ toString lvl ++ " not found"),
        m := m, invoked := 0 }
  | some c =>
      let m1 := logChallengeEvent m lvl "started" "Challenge execution started"
      cond (checkPrerequisites m1 c)
        (let r := execute c
        cond r.success
          (let c1 := { r.c with success_count := r.c.success_count + 1,
                                status := .completed }
          let m2 := updateChallenge m1 lvl c1
          let m3 := logChallengeEvent m2 lvl "completed"
                      "Challenge completed successfully"
          { result := .ok true, m := m3, invoked := r.invoked })
          (let c1 := { r.c with failure_count := r.c.failure_count + 1,
                                status := .failed }
          let m2 := updateChallenge m1 lvl c1
          let m3 := logChallengeEvent m2 lvl "failed" "Challenge failed"
          { result := .ok false, m := m3, invoked := r.invoked }))
        (let c1 := { c with failure_count := c.failure_count + 1,
                            status := .error, last_error := some prereqMsg }
        let m2 := updateChallenge m1 lvl c1
        let m3 := logChallengeEvent m2 lvl "error" prereqMsg
        { result := .error prereqMsg, m := m3, invoked := 0 })

/-- `ChallengeManager.reset_challenge`: missing level raises; otherwise
`challenge.reset()` and a "reset" log entry.  `.error` models the raise. -/
def managerResetChallenge (m : Manager) (lvl : Nat) : Except String Manager :=
  match lookupChallenge m.challenges lvl with
  | none => .error ("Challenge level " ++ toString lvl ++ " not found")
  | some c =>
      let m1 := updateChallenge m lvl (resetChallenge c)
      .ok (logChallengeEvent m1 lvl "reset" "Challenge reset to initial state")

/-- The levels of `m` with status "completed" (the list comprehension
`[level for level, challenge in self.challenges.items() if
challenge.status == "completed"]` of `get_overall_progress`). -/
def completedLevels (m : Manager) : List Nat :=
  m.challenges.filterMap
    (fun p => if p.2.status = .completed then some p.1 else none)

/-- Return value of `ChallengeManager.get_overall_progress`. -/
structure OverallProgress where
  total_challenges : Nat
  completed_challenges : Nat
  completion_percentage : Rat
  current_level : Nat
deriving DecidableEq, Repr

/-- `ChallengeManager.get_overall_progress`: totals, percentage, and
`current_level = max([level for completed], default=0) + 1`. -/
def get_overall_progress (m : Manager) : OverallProgress :=
  let total := m.challenges.length
  let completed :=
    (m.challenges.filter (fun p => p.2.status = .completed)).length
  { total_challenges := total
    completed_challenges := completed
    completion_percentage :=
      if total > 0 then (completed : Rat) / (total : Rat) * 100 else 0
    current_level := (completedLevels m).foldl max 0 + 1 }

/-- Modelled from the spec: the levels of the catalog whose status is not
Completed (used to state what the spec says `nextLevel` should be). -/
def nonCompletedLevels (m : Manager) : List Nat :=
  m.challenges.filterMap
    (fun p => if p.2.status = .completed then none else some p.1)

/-- Minimum of a new value and an optional running minimum. -/
def optMin (a : Nat) : Option Nat → Option Nat
  | none => some a
  | some x => some (min a x)

/-- Modelled from the spec: "`nextLevel` is the smallest level not yet
`Completed`, defaulting to 1 plus the highest completed level if all
lower levels are completed, else 1" — the smallest non-completed level
when one exists, else 1 plus the highest completed level. -/
def nextLevelSpec (m : Manager) : Nat :=
  match (nonCompletedLevels m).foldr optMin none with
  | some l => l
  | none => (completedLevels m).foldl max 0 + 1

/-- `ChallengeSystemState` of `challenge_system.py`. -/
inductive SysState where
  | idle
  | running
  | paused
  | stopping
  | error
deriving DecidableEq, Repr

/-- A `SystemEvent` as `_emit_event` builds it: the event type string, the
`level` field (set from `self.current_challenge_level` at emit time) and
the `success` entry of the data payload when present (`challenge_metrics`
carries it; other payload entries are not needed by any claim). -/
structure SysEvent where
  etype : String
  level : Option Nat
  success : Option Bool
deriving DecidableEq, Repr

/-- The state of a `ChallengeSystem`: orchestrator state, current level,
the wrapped manager, the event queue (`queue.Queue()` modelled as the list
of queued events, front first), and the two control flags. -/
structure System where
  state : SysState
  current_challenge_level : Option Nat
  manager : Manager
  event_queue : List SysEvent
  stop_requested : Bool
  pause_requested : Bool
deriving DecidableEq, Repr

/-- `self.event_queue.put(event)`: the queue is created with
`queue.Queue()` — no `maxsize` — so a put simply appends; nothing is
evicted. -/
def queuePut (q : List SysEvent) (e : SysEvent) : List SysEvent := q ++ [e]

/-- `queuePut` folded over a list of events published in order. -/
def queuePutAll (q : List SysEvent) (es : List SysEvent) : List SysEvent :=
  es.foldl queuePut q

/-- `ChallengeSystem._emit_event`: build the event with
`level = self.current_challenge_level` and put it on the queue (listener
callbacks have no effect on the system state and are not modelled). -/
def emitSysEvent (sys : System) (etype : String) (succ : Option Bool) :
    System :=
  let e : SysEvent := ⟨etype, sys.current_challenge_level, succ⟩
  { sys with event_queue := queuePut sys.event_queue e }

/-- `ChallengeSystem._execute_challenge_with_monitoring`: set
`current_challenge_level`, call `run_challenge`; if it raises, the handler
returns False (no metrics event); on a normal return emit
`challenge_metrics` carrying the success flag and return it. -/
def executeChallengeWithMonitoring (sys : System) (lvl : Nat) :
    Bool × System :=
  let sys1 := { sys with current_challenge_level := some lvl }
  let r := run_challenge sys1.manager lvl
  match r.result with
  | .error _ => (false, { sys1 with manager := r.m })
  | .ok success =>
      let sys2 := { sys1 with manager := r.m }
      (success, emitSysEvent sys2 "challenge_metrics" (some success))

/-- The `for level in range(start_level, end_level + 1)` loop of
`_execute_challenge_sequence`.  The pause busy-wait
(`while self.pause_requested and not self.stop_requested: sleep(1)`)
never exits in this sequential model, since the flags only change from
other threads; `none` marks that divergence.  The boolean of a `some`
result records whether the failure branch returned early. -/
def seqLoop (sys : System) : List Nat → Option (Bool × System)
  | [] => some (false, sys)
  | lvl :: rest =>
    cond sys.stop_requested (some (false, sys))
      (cond (sys.pause_requested && !sys.stop_requested) none
        (cond sys.stop_requested (some (false, sys))
          (let (success, sys1) := executeChallengeWithMonitoring sys lvl
          cond success
            (seqLoop sys1 rest)
            (let sys2 := { sys1 with state := .error }
            some (true, emitSysEvent sys2 "sequence_failed"
              (none : Option Bool))))))

/-- `ChallengeSystem._execute_challenge_sequence` (the worker body of
`start_challenge_sequence`): state to running, emit `sequence_started`,
run the level loop; the failure branch returns early after
`sequence_failed`; otherwise emit `sequence_completed` unless stopped,
then state to idle and clear the current level. -/
def executeChallengeSequence (sys : System) (lo hi : Nat) : Option System :=
  let sys1 := { sys with state := .running }
  let sys2 := emitSysEvent sys1 "sequence_started" none
  match seqLoop sys2 (List.range' lo (hi + 1 - lo)) with
  | none => none
  | some (true, s) => some s
  | some (false, s) =>
      let s1 := cond s.stop_requested s (emitSysEvent s "sequence_completed" none)
      some { s1 with state := .idle, current_challenge_level := none }

/-- `ChallengeSystem._execute_single_challenge` (the worker body of
`start_single_challenge`): state to running, emit `challenge_started`,
run with monitoring; on success emit `challenge_completed`, state to
idle; on failure state to error and emit `challenge_failed`. -/
def executeSingleChallenge (sys : System) (lvl : Nat) : System :=
  let sys1 := { sys with state := .running }
  let sys2 := emitSysEvent sys1 "challenge_started" none
  let (success, sys3) := executeChallengeWithMonitoring sys2 lvl
  cond success
    (let sys4 := emitSysEvent sys3 "challenge_completed" none
    { sys4 with state := .idle, current_challenge_level := none })
    (emitSysEvent { sys3 with state := .error } "challenge_failed" none)

/-- `ChallengeSystem.stop_execution`.  `joinTimedOut` says whether the
worker failed to terminate within the 10-second `join` bound; the code
ignores the join outcome: it always then sets state to idle, clears the
current level, emits `execution_stopped` and returns True. -/
def stop_execution (sys : System) (joinTimedOut : Bool) : Bool × System :=
  if sys.state = .idle ∨ sys.state = .stopping then (true, sys)
  else
    let sys1 := { sys with stop_requested := true, state := .stopping }
    let _ := joinTimedOut
    let sys2 := { sys1 with state := .idle, current_challenge_level := none }
    (true, emitSysEvent sys2 "execution_stopped" none)

/-- `ChallengeSystem.reset_challenge`: refuse when the system is running
this very level; otherwise delegate to the manager (whose raise for a
missing level is caught and turned into False) and emit
`challenge_reset`. -/
def sysResetChallenge (sys : System) (lvl : Nat) : Bool × System :=
  if sys.state = .running ∧ sys.current_challenge_level = some lvl then
    (false, sys)
  else
    match managerResetChallenge sys.manager lvl with
    | .error _ => (false, sys)
    | .ok m1 =>
        let sys1 := { sys with manager := m1 }
        (true, emitSysEvent sys1 "challenge_reset" none)

/-! Interleaving model for two concurrent `start_challenge_sequence`
calls (callers A and B) against one orchestrator.  The method body has
two atomic actions touching shared state: reading `self.state` in the
guard, and `Thread(...).start()`; the assignment
`self.state = ChallengeSystemState.RUNNING` is the first action of the
spawned worker (`_execute_challenge_sequence`), not of the caller.  A
schedule is an explicit interleaving of these atomic actions. -/

/-- Atomic actions of the two callers and of their spawned workers. -/
inductive RaceAct where
  | aCheck
  | aSpawn
  | bCheck
  | bSpawn
  | workerA
  | workerB
deriving DecidableEq, Repr

/-- Shared state plus each caller's program counter (0 = before the
state check, 1 = check passed, 2 = returned) and recorded return value;
`workers` counts threads started. -/
structure RaceState where
  state : SysState
  workers : Nat
  aPC : Nat
  bPC : Nat
  aResult : Option Bool
  bResult : Option Bool
  aSpawned : Bool
  bSpawned : Bool
  aWorkerRan : Bool
  bWorkerRan : Bool
deriving DecidableEq, Repr

/-- One atomic action.  A check against a non-idle state returns False
(`start_challenge_sequence` line `if self.state != IDLE: return False`);
a passed check lets the caller reach the spawn, which starts a worker and
returns True; a worker's first action sets the shared state to running. -/
def raceStep (s : RaceState) : RaceAct → RaceState
  | .aCheck =>
      if s.aPC = 0 then
        if s.state ≠ .idle then { s with aPC := 2, aResult := some false }
        else { s with aPC := 1 }
      else s
  | .aSpawn =>
      if s.aPC = 1 then
        { s with workers := s.workers + 1, aSpawned := true, aPC := 2,
                 aResult := some true }
      else s
  | .bCheck =>
      if s.bPC = 0 then
        if s.state ≠ .idle then { s with bPC := 2, bResult := some false }
        else { s with bPC := 1 }
      else s
  | .bSpawn =>
      if s.bPC = 1 then
        { s with workers := s.workers + 1, bSpawned := true, bPC := 2,
                 bResult := some true }
      else s
  | .workerA =>
      cond (s.aSpawned && !s.aWorkerRan)
        { s with state := .running, aWorkerRan := true } s
  | .workerB =>
      cond (s.bSpawned && !s.bWorkerRan)
        { s with state := .running, bWorkerRan := true } s

/-- Run a schedule of atomic actions. -/
def raceRun (s : RaceState) (sched : List RaceAct) : RaceState :=
  sched.foldl raceStep s

/-- Both callers poised before their checks, orchestrator idle. -/
def raceInit : RaceState :=
  { state := .idle, workers := 0, aPC := 0, bPC := 0, aResult := none,
    bResult := none, aSpawned := false, bSpawned := false,
    aWorkerRan := false, bWorkerRan := false }

/-! Concrete fixtures used by witnesses and counterexamples. -/

/-- A catalog row: level `l`, no prerequisites, no steps, status completed
iff `l ≤ k`. -/
def catalogRow (l k : Nat) : Nat × Challenge :=
  (l, { mkChallenge l [] [] with
          status := if l ≤ k then .completed else .not_started })

/-- Rows for levels `s, s+1, ..., s+n-1` of the prefix-completed catalog. -/
def catalogFrom (s n k : Nat) : List (Nat × Challenge) :=
  match n with
  | 0 => []
  | n + 1 => catalogRow s k :: catalogFrom (s + 1) n k

/-- A catalog of levels `1..n` in which exactly levels `1..k` are
completed. -/
def mkCatalog (n k : Nat) : Manager :=
  { challenges := catalogFrom 1 n k, challenge_logs := [] }

/-- A one-step challenge whose step succeeds. -/
def chOk (lvl : Nat) (prereqs : List Nat) : Challenge :=
  mkChallenge lvl prereqs [⟨"the step", .retTrue⟩]

/-- A one-step challenge whose step returns False. -/
def chBad (lvl : Nat) (prereqs : List Nat) : Challenge :=
  mkChallenge lvl prereqs [⟨"the step", .retFalse⟩]

/-- C1 fixture: level 2 requires level 1, which is not completed. -/
def mgrC1 : Manager :=
  { challenges := [(1, chOk 1 []), (2, chOk 2 [1])], challenge_logs := [] }

/-- C2/C4 witness fixture: five steps, the spec scenario, with step 3
either returning False or raising. -/
def stepsFive (third : StepBeh) : List StepSpec :=
  [⟨"s1", .retTrue⟩, ⟨"s2", .retTrue⟩, ⟨"s3", third⟩,
   ⟨"s4", .retTrue⟩, ⟨"s5", .retTrue⟩]

/-- C3 counterexample fixture: level 1 not started, level 2 completed. -/
def mgrC3 : Manager :=
  { challenges :=
      [(1, chOk 1 []),
       (2, { chOk 2 [] with status := .completed })],
    challenge_logs := [] }

/-- C4 counterexample fixture: the only challenge has a step that
raises. -/
def mgrC4 : Manager :=
  { challenges := [(1, mkChallenge 1 [] [⟨"s1", .raises "boom"⟩])],
    challenge_logs := [] }

/-- A system wrapping a manager, idle, nothing queued. -/
def mkSystem (m : Manager) : System :=
  { state := .idle, current_challenge_level := none, manager := m,
    event_queue := [], stop_requested := false, pause_requested := false }

/-- C5 fixture: levels 1..3; level 1 succeeds, level 2 fails, level 3
would succeed; prerequisites chain 1 ← 2 ← 3. -/
def sysC5 : System :=
  mkSystem
    { challenges := [(1, chOk 1 []), (2, chBad 2 [1]), (3, chOk 3 [2])],
      challenge_logs := [] }

/-- The event sequence the claim says `startSequence(1,3)` with level 2
failing produces, as (type, level) pairs. -/
def claimedC5Events : List (String × Option Nat) :=
  [("sequence_started", none), ("challenge_started", some 1),
   ("challenge_completed", some 1), ("challenge_started", some 2),
   ("challenge_failed", some 2), ("sequence_failed", some 2)]

/-- C6/C10 fixture: an orchestrator mid-run on level 1. -/
def sysRunning : System :=
  { mkSystem mgrC1 with state := .running, current_challenge_level := some 1 }

/-- C7 fixture: `n` distinguishable events. -/
def mkEvts (n : Nat) : List SysEvent :=
  (List.range n).map (fun i => ⟨"evt", some i, none⟩)

/-- C8 counterexample fixture: two steps, both succeeding. -/
def chC8 : Challenge := mkChallenge 1 [] [⟨"a", .retTrue⟩, ⟨"b", .retTrue⟩]

/-- The error message `execLoop` produces for a step, if any: the raised
message, or the formatted message when the step returned False. -/
def failErr (stepNum : Nat) (s : StepSpec) : Option String :=
  match s.beh with
  | .retTrue => none
  | .retFalse => some (stepFailMsg stepNum s.desc)
  | .raises msg => some msg

/-! Helper lemmas. -/

lemma logChallengeEvent_challenges (m : Manager) (lvl : Nat) (et msg : String) :
    (logChallengeEvent m lvl et msg).challenges = m.challenges := rfl

lemma checkPrerequisites_ext {m1 m2 : Manager} (c : Challenge)
    (h : m1.challenges = m2.challenges) :
    checkPrerequisites m1 c = checkPrerequisites m2 c := by
  simp [checkPrerequisites, h]

lemma lookup_map_update (ls : List (Nat × Challenge)) (lvl : Nat)
    (c c0 : Challenge) (h : lookupChallenge ls lvl = some c0) :
    lookupChallenge (ls.map (fun p => if p.1 = lvl then (lvl, c) else p)) lvl
      = some c := by
  induction ls with
  | nil => simp [lookupChallenge] at h
  | cons hd tl ih =>
    obtain ⟨l, cc⟩ := hd
    rw [List.map_cons]
    by_cases hh : l = lvl
    · subst hh
      rw [if_pos (show ((l, cc).1 = l) from rfl)]
      simp [lookupChallenge]
    · rw [lookupChallenge] at h
      rw [if_neg hh] at h
      have : ((l, cc).1 = lvl) = False := by simp [hh]
      simp only [this, if_false]
      rw [lookupChallenge, if_neg hh]
      exact ih h

lemma lookup_updateChallenge (m : Manager) (lvl : Nat) (c c0 : Challenge)
    (h : lookupChallenge m.challenges lvl = some c0) :
    lookupChallenge (updateChallenge m lvl c).challenges lvl = some c := by
  simpa [updateChallenge] using lookup_map_update m.challenges lvl c c0 h

lemma queuePutAll_eq (q : List SysEvent) (es : List SysEvent) :
    queuePutAll q es = q ++ es := by
  induction es generalizing q with
  | nil => simp [queuePutAll]
  | cons e es ih =>
    simp only [queuePutAll, List.foldl_cons] at ih ⊢
    rw [ih, queuePut, List.append_assoc]
    rfl

/-! C6. -/

/-- C6: corrected.  `stop_execution` on a non-idle, non-stopping system
sets the stop flag, passes through Stopping, joins with a 10 s bound, and
then unconditionally sets state to Idle, emits `execution_stopped` and
returns True — the join outcome is ignored, so the result is the same
whether or not the join timed out (the claim said a timed-out join makes
it return false). -/
theorem C6_stop_always_true (sys : System) (j : Bool)
    (h : ¬ (sys.state = .idle ∨ sys.state = .stopping)) :
    (stop_execution sys j).1 = true ∧
    (stop_execution sys j).2.state = .idle ∧
    (stop_execution sys j).2.stop_requested = true ∧
    (stop_execution sys j).2.current_challenge_level = none ∧
    (stop_execution sys j).2.event_queue
      = sys.event_queue ++ [⟨"execution_stopped", none, none⟩] ∧
    stop_execution sys j = stop_execution sys true := by
  simp [stop_execution, h, emitSysEvent, queuePut]

/-- C6 witness: the theorem applied to a running orchestrator whose join
timed out. -/
theorem C6_stop_always_true_witness :
    ¬ (sysRunning.state = .idle ∨ sysRunning.state = .stopping) ∧
    ((stop_execution sysRunning true).1 = true ∧
     (stop_execution sysRunning true).2.state = .idle ∧
     (stop_execution sysRunning true).2.stop_requested = true ∧
     (stop_execution sysRunning true).2.current_challenge_level = none ∧
     (stop_execution sysRunning true).2.event_queue
       = sysRunning.event_queue ++ [⟨"execution_stopped", none, none⟩] ∧
     stop_execution sysRunning true = stop_execution sysRunning true) :=
  ⟨by decide, C6_stop_always_true sysRunning true (by decide)⟩

/-- C6 counterexample: with the system running and the join timing out,
`stop_execution` returns True, not the False the claim requires. -/
theorem C6_counterexample :
    (stop_execution sysRunning true).1 = true ∧ true ≠ false := by decide

/-! C7. -/

/-- C7: corrected.  The event queue is created as `queue.Queue()` with no
`maxsize`: a publish appends and never blocks, but nothing is ever
evicted — every published event survives, in FIFO order.  The only
bounded FIFO store in this code is the ChallengeManager challenge log,
whose length is capped at 1000. -/
theorem C7_queue_unbounded :
    (∀ q es, queuePutAll q es = q ++ es) ∧
    (∀ m lvl et msg, (logChallengeEvent m lvl et msg).challenge_logs.length
        = min (m.challenge_logs.length + 1) 1000) := by
  constructor
  · exact queuePutAll_eq
  · intro m lvl et msg
    simp only [logChallengeEvent, List.length_append, List.length_cons,
      List.length_nil]
    split <;> rename_i hlen <;> simp [List.length_drop] <;> omega

/-- C7 counterexample: publishing 1005 events into the queue retains all
1005 of them, the oldest included — no ring-buffer eviction at any bound
N ≤ 1000 occurs. -/
theorem C7_counterexample :
    queuePutAll [] (mkEvts 1005) = mkEvts 1005 ∧
    (mkEvts 1005).length = 1005 ∧
    (mkEvts 1005).head? = some ⟨"evt", some 0, none⟩ ∧
    ¬ ((1005 : Nat) ≤ 1000) := by
  refine ⟨by simp [queuePutAll_eq], by simp [mkEvts], ?_, by omega⟩
  rw [mkEvts, show (1005 : Nat) = 1004 + 1 from rfl, List.range_succ_eq_map]
  rfl

/-! C9. -/

/-- C9: corrected.  `start_challenge_sequence` only reads `self.state` in
its guard and spawns the worker; the transition out of Idle
(`self.state = RUNNING`) is the first action of the spawned worker, so
there is no atomic check-and-set.  In the interleaving where both callers
check before either worker runs, both calls are accepted and two workers
are spawned; one call is rejected only in interleavings where the first
worker sets Running before the second caller's check. -/
theorem C9_check_and_set_not_atomic :
    ((raceRun raceInit [.aCheck, .bCheck, .aSpawn, .bSpawn]).aResult
        = some true ∧
     (raceRun raceInit [.aCheck, .bCheck, .aSpawn, .bSpawn]).bResult
        = some true ∧
     (raceRun raceInit [.aCheck, .bCheck, .aSpawn, .bSpawn]).workers = 2) ∧
    ((raceRun raceInit [.aCheck, .aSpawn, .workerA, .bCheck]).aResult
        = some true ∧
     (raceRun raceInit [.aCheck, .aSpawn, .workerA, .bCheck]).bResult
        = some false ∧
     (raceRun raceInit [.aCheck, .aSpawn, .workerA, .bCheck]).workers = 1) := by
  decide

/-- C9 counterexample: the interleaving in which both callers pass the
Idle check before either worker starts ends with both calls accepted and
two workers spawned, contradicting "exactly one call is accepted" and
"two workers can never be spawned". -/
theorem C9_counterexample :
    (raceRun raceInit [.aCheck, .bCheck, .aSpawn, .bSpawn]).aResult
       = some true ∧
    (raceRun raceInit [.aCheck, .bCheck, .aSpawn, .bSpawn]).bResult
       = some true ∧
    ¬ ((raceRun raceInit [.aCheck, .bCheck, .aSpawn, .bSpawn]).workers ≤ 1)
    := by decide

/-! C10. -/

/-- C10: confirmed.  `reset_challenge(L)` returns False and changes
nothing when the orchestrator is Running on level L itself; for any other
orchestrator state/level combination with L in the registry it resets the
challenge, emits `challenge_reset`, and returns True. -/
theorem C10_reset_challenge (sys : System) (lvl : Nat) (c : Challenge)
    (hc : lookupChallenge sys.manager.challenges lvl = some c) :
    if sys.state = .running ∧ sys.current_challenge_level = some lvl then
      sysResetChallenge sys lvl = (false, sys)
    else
      (sysResetChallenge sys lvl).1 = true ∧
      lookupChallenge (sysResetChallenge sys lvl).2.manager.challenges lvl
        = some (resetChallenge c) ∧
      (sysResetChallenge sys lvl).2.event_queue
        = sys.event_queue
            ++ [⟨"challenge_reset", sys.current_challenge_level, none⟩] := by
  split
  · rename_i hg
    simp [sysResetChallenge, hg]
  · rename_i hg
    have hres : managerResetChallenge sys.manager lvl
        = .ok (logChallengeEvent (updateChallenge sys.manager lvl
            (resetChallenge c)) lvl "reset" "Challenge reset to initial state")
        := by
      simp [managerResetChallenge, hc]
    refine ⟨?_, ?_, ?_⟩ <;>
      simp [sysResetChallenge, hg, hres, emitSysEvent, queuePut,
        logChallengeEvent_challenges, lookup_updateChallenge sys.manager lvl
          (resetChallenge c) c hc]

/-- C10 witness: resetting level 1 of an idle orchestrator succeeds. -/
theorem C10_reset_challenge_witness :
    lookupChallenge (mkSystem mgrC1).manager.challenges 1 = some (chOk 1 []) ∧
    (if (mkSystem mgrC1).state = .running ∧
        (mkSystem mgrC1).current_challenge_level = some 1 then
      sysResetChallenge (mkSystem mgrC1) 1 = (false, mkSystem mgrC1)
    else
      (sysResetChallenge (mkSystem mgrC1) 1).1 = true ∧
      lookupChallenge
          (sysResetChallenge (mkSystem mgrC1) 1).2.manager.challenges 1
        = some (resetChallenge (chOk 1 [])) ∧
      (sysResetChallenge (mkSystem mgrC1) 1).2.event_queue
        = (mkSystem mgrC1).event_queue
            ++ [⟨"challenge_reset",
                 (mkSystem mgrC1).current_challenge_level, none⟩]) :=
  ⟨by decide, C10_reset_challenge (mkSystem mgrC1) 1 (chOk 1 []) (by decide)⟩

/-! The step loop: behaviour on an all-successful prefix followed by a
failing or raising step, and the progress/current_step relation at every
observable instant. -/

lemma execLoop_fail (pref : List StepSpec) (s : StepSpec)
    (rest : List StepSpec) (total : Nat) (c : Challenge) (i : Nat)
    (hpref : ∀ x ∈ pref, x.beh = .retTrue)
    (hfail : s.beh ≠ .retTrue)
    (hprog : c.progress = (i : Rat) / (total : Rat)) :
    (execLoop total c i (pref ++ s :: rest)).err
      = failErr (i + pref.length + 1) s ∧
    (execLoop total c i (pref ++ s :: rest)).invoked = pref.length + 1 ∧
    (execLoop total c i (pref ++ s :: rest)).c.current_step
      = i + pref.length + 1 ∧
    (execLoop total c i (pref ++ s :: rest)).c.progress
      = ((i + pref.length : Nat) : Rat) / (total : Rat) ∧
    (execLoop total c i (pref ++ s :: rest)).c.status = c.status ∧
    (execLoop total c i (pref ++ s :: rest)).c.last_error = c.last_error := by
  induction pref generalizing c i with
  | nil =>
    cases hb : s.beh with
    | retTrue => exact absurd hb hfail
    | retFalse => simp [execLoop, hb, failErr, hprog]
    | raises msg => simp [execLoop, hb, failErr, hprog]
  | cons x pref ih =>
    have hx : x.beh = .retTrue := hpref x (by simp)
    obtain ⟨e1, e2, e3, e4, e5, e6⟩ := ih
      (fun y hy => hpref y (by simp [hy]))
      (c := { c with current_step := i + 1,
                     progress := ((i + 1 : Nat) : Rat) / (total : Rat) })
      (i := i + 1) (by simp)
    have harith : i + 1 + pref.length = i + (x :: pref).length := by
      simp; omega
    rw [List.cons_append]
    refine ⟨?_, ?_, ?_, ?_, ?_, ?_⟩ <;> simp only [execLoop, hx]
    · rw [e1, harith]
    · rw [e2]; simp
    · rw [e3, harith]
    · rw [e4, harith]
    · rw [e5]
    · rw [e6]

lemma execLoop_snaps (specs : List StepSpec) (total : Nat) (c : Challenge)
    (i : Nat) (hprog : c.progress = (i : Rat) / (total : Rat)) :
    ∀ snap ∈ (execLoop total c i specs).snaps,
      snap.prog = (if snap.before then ((snap.cs - 1 : Nat) : Rat)
                   else (snap.cs : Rat)) / (total : Rat) := by
  induction specs generalizing c i with
  | nil => simp [execLoop]
  | cons s rest ih =>
    intro snap hsnap
    cases hb : s.beh with
    | retTrue =>
      simp only [execLoop, hb, List.mem_cons] at hsnap
      rcases hsnap with rfl | rfl | h3
      · simpa using hprog
      · simp
      · exact ih
          (c := { c with current_step := i + 1,
                         progress := ((i + 1 : Nat) : Rat) / (total : Rat) })
          (i := i + 1) (by simp) snap h3
    | retFalse =>
      simp only [execLoop, hb, List.mem_cons, List.not_mem_nil, or_false]
        at hsnap
      subst hsnap
      simpa using hprog
    | raises msg =>
      simp only [execLoop, hb, List.mem_cons, List.not_mem_nil, or_false]
        at hsnap
      subst hsnap
      simpa using hprog

lemma execute_fail_spec (ch : Challenge) (pref : List StepSpec)
    (s : StepSpec) (rest : List StepSpec)
    (hsetup : ch.preSetup = true)
    (hsteps : ch.stepsSpec = pref ++ s :: rest)
    (hpref : ∀ x ∈ pref, x.beh = .retTrue)
    (hfail : s.beh ≠ .retTrue) :
    (execute ch).invoked = pref.length + 1 ∧
    (execute ch).success = false ∧
    (execute ch).c.status = .failed ∧
    (execute ch).cleanupInvoked = true ∧
    (execute ch).c.last_error = failErr (pref.length + 1) s ∧
    (execute ch).c.current_step = pref.length + 1 ∧
    (execute ch).c.progress
      = ((pref.length : Nat) : Rat) / ((pref ++ s :: rest).length : Rat) := by
  obtain ⟨e1, e2, e3, e4, _, _⟩ := execLoop_fail pref s rest
    ch.stepsSpec.length
    { ch with status := .running, progress := 0, current_step := 0,
              last_error := none, steps_len := ch.stepsSpec.length }
    0 hpref hfail (by simp)
  simp only [Nat.zero_add] at e1 e3 e4
  rw [hsteps] at e1 e2 e3 e4
  simp only [hsetup] at e1 e2 e3 e4
  simp only [execute, hsetup, cond_true]
  rw [hsteps]
  cases hb : s.beh with
  | retTrue => exact absurd hb hfail
  | retFalse =>
    simp only [failErr, hb] at e1
    rw [e1]
    refine ⟨e2, rfl, rfl, rfl, ?_, e3, e4⟩
    simp [failErr, hb]
  | raises msg =>
    simp only [failErr, hb] at e1
    rw [e1]
    refine ⟨e2, rfl, rfl, rfl, ?_, e3, e4⟩
    simp [failErr, hb]

/-! C2. -/

/-- C2: confirmed.  When the steps are an all-successful prefix of length
k-1 followed by a step that returns False or raises, `execute` invokes
exactly k step functions (so steps k+1..n are never invoked), returns
failure, sets status Failed, records the failure message in `last_error`,
and still invokes `post_challenge_cleanup`. -/
theorem C2_fail_fast (ch : Challenge) (pref : List StepSpec) (s : StepSpec)
    (rest : List StepSpec)
    (hsetup : ch.preSetup = true)
    (hsteps : ch.stepsSpec = pref ++ s :: rest)
    (hpref : ∀ x ∈ pref, x.beh = .retTrue)
    (hfail : s.beh ≠ .retTrue) :
    (execute ch).invoked = pref.length + 1 ∧
    (execute ch).success = false ∧
    (execute ch).c.status = .failed ∧
    (execute ch).cleanupInvoked = true ∧
    (execute ch).c.last_error = failErr (pref.length + 1) s := by
  obtain ⟨h1, h2, h3, h4, h5, _, _⟩ :=
    execute_fail_spec ch pref s rest hsetup hsteps hpref hfail
  exact ⟨h1, h2, h3, h4, h5⟩

/-- C2 witness: the spec scenario — five steps with step 3 returning
False gives exactly 3 invocations, status Failed, the step-3 message in
`last_error`, cleanup invoked, and a failure return. -/
theorem C2_fail_fast_witness :
    (mkChallenge 1 [] (stepsFive .retFalse)).preSetup = true ∧
    (mkChallenge 1 [] (stepsFive .retFalse)).stepsSpec
      = [⟨"s1", .retTrue⟩, ⟨"s2", .retTrue⟩] ++ ⟨"s3", StepBeh.retFalse⟩
          :: [⟨"s4", .retTrue⟩, ⟨"s5", .retTrue⟩] ∧
    ((execute (mkChallenge 1 [] (stepsFive .retFalse))).invoked
        = [(⟨"s1", .retTrue⟩ : StepSpec), ⟨"s2", .retTrue⟩].length + 1 ∧
     (execute (mkChallenge 1 [] (stepsFive .retFalse))).success = false ∧
     (execute (mkChallenge 1 [] (stepsFive .retFalse))).c.status = .failed ∧
     (execute (mkChallenge 1 [] (stepsFive .retFalse))).cleanupInvoked
        = true ∧
     (execute (mkChallenge 1 [] (stepsFive .retFalse))).c.last_error
        = failErr ([(⟨"s1", .retTrue⟩ : StepSpec), ⟨"s2", .retTrue⟩].length
            + 1) ⟨"s3", StepBeh.retFalse⟩) :=
  ⟨by decide, by decide,
   C2_fail_fast (mkChallenge 1 [] (stepsFive .retFalse))
     [⟨"s1", .retTrue⟩, ⟨"s2", .retTrue⟩] ⟨"s3", StepBeh.retFalse⟩
     [⟨"s4", .retTrue⟩, ⟨"s5", .retTrue⟩]
     (by decide) (by decide) (by decide) (by decide)⟩

/-! C4. -/

/-- C4: corrected.  A step that raises is caught inside `execute` itself,
so the run ends with challenge status Failed — the same label as a step
returning failure — with the raised message captured in `last_error`, and
with control flow (success flag, number of invocations, current_step,
progress, cleanup) identical to the returning-failure case.  Status Error
is not produced by a step fault; `run_challenge` sets it only when an
exception escapes `execute` (e.g. unmet prerequisites). -/
theorem C4_fault_status_failed (ch : Challenge) (pref rest : List StepSpec)
    (d msg : String)
    (hsetup : ch.preSetup = true)
    (hpref : ∀ x ∈ pref, x.beh = .retTrue) :
    (execute { ch with stepsSpec
        := pref ++ ⟨d, StepBeh.raises msg⟩ :: rest }).c.status = .failed ∧
    (execute { ch with stepsSpec
        := pref ++ ⟨d, StepBeh.raises msg⟩ :: rest }).c.last_error
      = some msg ∧
    (execute { ch with stepsSpec
        := pref ++ ⟨d, StepBeh.retFalse⟩ :: rest }).c.last_error
      = some (stepFailMsg (pref.length + 1) d) ∧
    (execute { ch with stepsSpec
        := pref ++ ⟨d, StepBeh.raises msg⟩ :: rest }).success
      = (execute { ch with stepsSpec
        := pref ++ ⟨d, StepBeh.retFalse⟩ :: rest }).success ∧
    (execute { ch with stepsSpec
        := pref ++ ⟨d, StepBeh.raises msg⟩ :: rest }).invoked
      = (execute { ch with stepsSpec
        := pref ++ ⟨d, StepBeh.retFalse⟩ :: rest }).invoked ∧
    (execute { ch with stepsSpec
        := pref ++ ⟨d, StepBeh.raises msg⟩ :: rest }).c.status
      = (execute { ch with stepsSpec
        := pref ++ ⟨d, StepBeh.retFalse⟩ :: rest }).c.status ∧
    (execute { ch with stepsSpec
        := pref ++ ⟨d, StepBeh.raises msg⟩ :: rest }).c.current_step
      = (execute { ch with stepsSpec
        := pref ++ ⟨d, StepBeh.retFalse⟩ :: rest }).c.current_step ∧
    (execute { ch with stepsSpec
        := pref ++ ⟨d, StepBeh.raises msg⟩ :: rest }).c.progress
      = (execute { ch with stepsSpec
        := pref ++ ⟨d, StepBeh.retFalse⟩ :: rest }).c.progress ∧
    (execute { ch with stepsSpec
        := pref ++ ⟨d, StepBeh.raises msg⟩ :: rest }).cleanupInvoked
      = (execute { ch with stepsSpec
        := pref ++ ⟨d, StepBeh.retFalse⟩ :: rest }).cleanupInvoked := by
  obtain ⟨r1, r2, r3, r4, r5, r6, r7⟩ := execute_fail_spec
    { ch with stepsSpec := pref ++ ⟨d, StepBeh.raises msg⟩ :: rest }
    pref ⟨d, StepBeh.raises msg⟩ rest hsetup rfl hpref (by simp)
  obtain ⟨f1, f2, f3, f4, f5, f6, f7⟩ := execute_fail_spec
    { ch with stepsSpec := pref ++ ⟨d, StepBeh.retFalse⟩ :: rest }
    pref ⟨d, StepBeh.retFalse⟩ rest hsetup rfl hpref (by simp)
  simp only [failErr] at r5 f5
  refine ⟨r3, r5, f5, ?_, ?_, ?_, ?_, ?_, ?_⟩
  · rw [r2, f2]
  · rw [r1, f1]
  · rw [r3, f3]
  · rw [r6, f6]
  · rw [r7, f7]; simp
  · rw [r4, f4]

/-- C4 counterexample: a run whose only step raises "boom" ends with
challenge status Failed, not the Error status the claim requires. -/
theorem C4_counterexample :
    (lookupChallenge (run_challenge mgrC4 1).m.challenges 1).map
        Challenge.status = some .failed ∧
    Status.failed ≠ Status.error := by decide

/-- C4 witness: two successful steps then a raising third step — status
Failed, the message captured, control flow identical to the
returning-False variant of the same challenge. -/
theorem C4_fault_status_failed_witness :
    (mkChallenge 1 [] []).preSetup = true ∧
    ((execute { mkChallenge 1 [] [] with stepsSpec
        := [⟨"s1", .retTrue⟩, ⟨"s2", .retTrue⟩]
             ++ ⟨"s3", StepBeh.raises "boom"⟩ :: [] }).c.status = .failed ∧
     (execute { mkChallenge 1 [] [] with stepsSpec
        := [⟨"s1", .retTrue⟩, ⟨"s2", .retTrue⟩]
             ++ ⟨"s3", StepBeh.raises "boom"⟩ :: [] }).c.last_error
        = some "boom" ∧
     (execute { mkChallenge 1 [] [] with stepsSpec
        := [⟨"s1", .retTrue⟩, ⟨"s2", .retTrue⟩]
             ++ ⟨"s3", StepBeh.retFalse⟩ :: [] }).c.last_error
        = some (stepFailMsg ([(⟨"s1", .retTrue⟩ : StepSpec),
            ⟨"s2", .retTrue⟩].length + 1) "s3") ∧
     (execute { mkChallenge 1 [] [] with stepsSpec
        := [⟨"s1", .retTrue⟩, ⟨"s2", .retTrue⟩]
             ++ ⟨"s3", StepBeh.raises "boom"⟩ :: [] }).success
        = (execute { mkChallenge 1 [] [] with stepsSpec
        := [⟨"s1", .retTrue⟩, ⟨"s2", .retTrue⟩]
             ++ ⟨"s3", StepBeh.retFalse⟩ :: [] }).success ∧
     (execute { mkChallenge 1 [] [] with stepsSpec
        := [⟨"s1", .retTrue⟩, ⟨"s2", .retTrue⟩]
             ++ ⟨"s3", StepBeh.raises "boom"⟩ :: [] }).invoked
        = (execute { mkChallenge 1 [] [] with stepsSpec
        := [⟨"s1", .retTrue⟩, ⟨"s2", .retTrue⟩]
             ++ ⟨"s3", StepBeh.retFalse⟩ :: [] }).invoked ∧
     (execute { mkChallenge 1 [] [] with stepsSpec
        := [⟨"s1", .retTrue⟩, ⟨"s2", .retTrue⟩]
             ++ ⟨"s3", StepBeh.raises "boom"⟩ :: [] }).c.status
        = (execute { mkChallenge 1 [] [] with stepsSpec
        := [⟨"s1", .retTrue⟩, ⟨"s2", .retTrue⟩]
             ++ ⟨"s3", StepBeh.retFalse⟩ :: [] }).c.status ∧
     (execute { mkChallenge 1 [] [] with stepsSpec
        := [⟨"s1", .retTrue⟩, ⟨"s2", .retTrue⟩]
             ++ ⟨"s3", StepBeh.raises "boom"⟩ :: [] }).c.current_step
        = (execute { mkChallenge 1 [] [] with stepsSpec
        := [⟨"s1", .retTrue⟩, ⟨"s2", .retTrue⟩]
             ++ ⟨"s3", StepBeh.retFalse⟩ :: [] }).c.current_step ∧
     (execute { mkChallenge 1 [] [] with stepsSpec
        := [⟨"s1", .retTrue⟩, ⟨"s2", .retTrue⟩]
             ++ ⟨"s3", StepBeh.raises "boom"⟩ :: [] }).c.progress
        = (execute { mkChallenge 1 [] [] with stepsSpec
        := [⟨"s1", .retTrue⟩, ⟨"s2", .retTrue⟩]
             ++ ⟨"s3", StepBeh.retFalse⟩ :: [] }).c.progress ∧
     (execute { mkChallenge 1 [] [] with stepsSpec
        := [⟨"s1", .retTrue⟩, ⟨"s2", .retTrue⟩]
             ++ ⟨"s3", StepBeh.raises "boom"⟩ :: [] }).cleanupInvoked
        = (execute { mkChallenge 1 [] [] with stepsSpec
        := [⟨"s1", .retTrue⟩, ⟨"s2", .retTrue⟩]
             ++ ⟨"s3", StepBeh.retFalse⟩ :: [] }).cleanupInvoked) :=
  ⟨by decide,
   C4_fault_status_failed (mkChallenge 1 [] [])
     [⟨"s1", .retTrue⟩, ⟨"s2", .retTrue⟩] [] "s3" "boom"
     (by decide) (by decide)⟩

/-! C8. -/

/-- C8: corrected.  Mid-run, `progress` lags one step behind
`currentStep`: at the instant a step is being executed (`before = true`),
`progress = (currentStep - 1)/totalSteps`; the claimed equality
`progress = currentStep/totalSteps` holds only at the instant just after
a step has succeeded (`before = false`). -/
theorem C8_progress_lags (ch : Challenge) (snap : Snapshot)
    (h : snap ∈ (execute ch).snaps) :
    snap.prog = (if snap.before then ((snap.cs - 1 : Nat) : Rat)
                 else (snap.cs : Rat)) / (ch.stepsSpec.length : Rat) := by
  cases hs : ch.preSetup with
  | false =>
    rw [execute, hs] at h
    simp at h
  | true =>
    have hsnaps : (execute ch).snaps
        = (execLoop ch.stepsSpec.length
            { ch with status := .running, progress := 0, current_step := 0,
                      last_error := none, steps_len := ch.stepsSpec.length }
            0 ch.stepsSpec).snaps := by
      simp only [execute, hs, cond_true]
      split
      all_goals try rfl
      split <;> rfl
    rw [hsnaps] at h
    exact execLoop_snaps ch.stepsSpec ch.stepsSpec.length _ 0 (by simp)
      snap h

/-- C8 witness: for the two-step all-successful challenge, the snapshot
taken while step 1 runs has `currentStep = 1` and
`progress = (1-1)/2 = 0`. -/
theorem C8_progress_lags_witness :
    (⟨true, 1, 0⟩ : Snapshot) ∈ (execute chC8).snaps ∧
    (Snapshot.prog ⟨true, 1, 0⟩
      = (if (Snapshot.before ⟨true, 1, 0⟩ : Bool)
         then ((Snapshot.cs ⟨true, 1, 0⟩ - 1 : Nat) : Rat)
         else (Snapshot.cs ⟨true, 1, 0⟩ : Rat))
          / (chC8.stepsSpec.length : Rat)) :=
  ⟨by decide, C8_progress_lags chC8 ⟨true, 1, 0⟩ (by decide)⟩

/-- C8 counterexample: in a run of the two-step challenge there is an
observable mid-run instant with `currentStep = 1` but `progress = 0`,
while the claim requires `progress = 1/2` there. -/
theorem C8_counterexample :
    (⟨true, 1, 0⟩ : Snapshot) ∈ (execute chC8).snaps ∧
    chC8.stepsSpec.length = 2 ∧
    ¬ ((0 : Rat) = (1 : Rat) / (2 : Rat)) :=
  ⟨by decide, by decide, by norm_num⟩

/-! C1. -/

/-- C1: corrected.  With unmet prerequisites, `run_challenge` (the body
`startSingle` delegates to) raises before `execute` is ever called — no
step executes (0 step invocations) — but the claim's "status remains
NotStarted" fails: the `except` handler sets the challenge status to
Error, increments `failure_count` and records the message in
`last_error`; the single-challenge worker then ends with orchestrator
state Error and a `challenge_failed` event. -/
theorem C1_prereq_abort (sys : System) (lvl : Nat) (c : Challenge)
    (hc : lookupChallenge sys.manager.challenges lvl = some c)
    (hpre : checkPrerequisites sys.manager c = false) :
    (run_challenge sys.manager lvl).result = .error prereqMsg ∧
    (run_challenge sys.manager lvl).invoked = 0 ∧
    lookupChallenge (run_challenge sys.manager lvl).m.challenges lvl
      = some { c with failure_count := c.failure_count + 1,
                      status := .error, last_error := some prereqMsg } ∧
    (executeSingleChallenge sys lvl).state = .error ∧
    lookupChallenge
        (executeSingleChallenge sys lvl).manager.challenges lvl
      = some { c with failure_count := c.failure_count + 1,
                      status := .error, last_error := some prereqMsg } ∧
    (executeSingleChallenge sys lvl).event_queue
      = sys.event_queue
          ++ [⟨"challenge_started", sys.current_challenge_level, none⟩,
              ⟨"challenge_failed", some lvl, none⟩] := by
  have hpre1 : checkPrerequisites
      (logChallengeEvent sys.manager lvl "started"
        "Challenge execution started") c = false :=
    (checkPrerequisites_ext c
      (logChallengeEvent_challenges sys.manager lvl _ _)).trans hpre
  have hc1 : lookupChallenge
      (logChallengeEvent sys.manager lvl "started"
        "Challenge execution started").challenges lvl = some c := by
    rw [logChallengeEvent_challenges]; exact hc
  have hres : (run_challenge sys.manager lvl).result = .error prereqMsg := by
    simp [run_challenge, hc, hpre1]
  have hinv : (run_challenge sys.manager lvl).invoked = 0 := by
    simp [run_challenge, hc, hpre1]
  have hm : lookupChallenge (run_challenge sys.manager lvl).m.challenges lvl
      = some { c with failure_count := c.failure_count + 1,
                      status := .error, last_error := some prereqMsg } := by
    simp only [run_challenge, hc, hpre1, cond_false]
    rw [logChallengeEvent_challenges]
    exact lookup_updateChallenge _ lvl _ c hc1
  refine ⟨hres, hinv, hm, ?_, ?_, ?_⟩
  · simp [executeSingleChallenge, executeChallengeWithMonitoring,
          emitSysEvent, queuePut, hres]
  · simp only [executeSingleChallenge, executeChallengeWithMonitoring,
      emitSysEvent, queuePut]
    simp [hres, hm]
  · simp [executeSingleChallenge, executeChallengeWithMonitoring,
          emitSysEvent, queuePut, hres]

/-- C1 witness: level 2 of the fixture requires level 1, which is not
completed — the run aborts with 0 step invocations and the challenge
ends in status Error. -/
theorem C1_prereq_abort_witness :
    lookupChallenge (mkSystem mgrC1).manager.challenges 2
      = some (chOk 2 [1]) ∧
    checkPrerequisites (mkSystem mgrC1).manager (chOk 2 [1]) = false ∧
    ((run_challenge (mkSystem mgrC1).manager 2).result
        = .error prereqMsg ∧
     (run_challenge (mkSystem mgrC1).manager 2).invoked = 0 ∧
     lookupChallenge
         (run_challenge (mkSystem mgrC1).manager 2).m.challenges 2
       = some { chOk 2 [1] with
                  failure_count := (chOk 2 [1]).failure_count + 1,
                  status := .error, last_error := some prereqMsg } ∧
     (executeSingleChallenge (mkSystem mgrC1) 2).state = .error ∧
     lookupChallenge
         (executeSingleChallenge (mkSystem mgrC1) 2).manager.challenges 2
       = some { chOk 2 [1] with
                  failure_count := (chOk 2 [1]).failure_count + 1,
                  status := .error, last_error := some prereqMsg } ∧
     (executeSingleChallenge (mkSystem mgrC1) 2).event_queue
       = (mkSystem mgrC1).event_queue
           ++ [⟨"challenge_started",
                (mkSystem mgrC1).current_challenge_level, none⟩,
               ⟨"challenge_failed", some 2, none⟩]) :=
  ⟨by decide, by decide,
   C1_prereq_abort (mkSystem mgrC1) 2 (chOk 2 [1]) (by decide) (by decide)⟩

/-- C1 counterexample: after running level 2 with its prerequisite level
1 uncompleted, the challenge status is Error — not the NotStarted the
claim requires. -/
theorem C1_counterexample :
    (lookupChallenge (run_challenge mgrC1 2).m.challenges 2).map
        Challenge.status = some .error ∧
    Status.error ≠ Status.not_started := by decide

/-! C3. -/

lemma catalogFrom_completed_high (n s k : Nat) (h : k < s) :
    (catalogFrom s n k).filterMap
      (fun p => if p.2.status = .completed then some p.1 else none)
      = [] := by
  induction n generalizing s with
  | zero => simp [catalogFrom]
  | succ n ih =>
    have hns : ¬ s ≤ k := by omega
    simp [catalogFrom, catalogRow, hns, ih (s + 1) (by omega)]

lemma catalogFrom_foldl_max (n s k a : Nat) (h1 : s ≤ k + 1)
    (h2 : k + 1 ≤ s + n) :
    ((catalogFrom s n k).filterMap
      (fun p => if p.2.status = .completed then some p.1 else none)).foldl
      max a = if s ≤ k then max a k else a := by
  induction n generalizing s a with
  | zero =>
    have hs : ¬ s ≤ k := by omega
    simp [catalogFrom, hs]
  | succ n ih =>
    by_cases hs : s ≤ k
    · simp only [catalogFrom, catalogRow, List.filterMap_cons]
      simp only [hs, if_true]
      simp only [List.foldl_cons]
      by_cases hs1 : s + 1 ≤ k
      · rw [ih (s + 1) (max a s) (by omega) (by omega)]
        simp only [hs1, if_true, hs, max_assoc]
        rw [Nat.max_eq_right hs]
      · have hsk : s = k := by omega
        rw [ih (s + 1) (max a s) (by omega) (by omega)]
        simp [hs1, hs, hsk]
    · simp [catalogFrom_completed_high (n + 1) s k (by omega), hs]

lemma catalogFrom_noncompleted_all (n s k : Nat) (h : k < s) :
    (((catalogFrom s n k).filterMap
      (fun p => if p.2.status = .completed then none else some p.1)).foldr
      optMin none) = if n = 0 then none else some s := by
  induction n generalizing s with
  | zero => simp [catalogFrom]
  | succ n ih =>
    have hns : ¬ s ≤ k := by omega
    rw [show catalogFrom s (n + 1) k
        = catalogRow s k :: catalogFrom (s + 1) n k from rfl]
    simp [catalogRow, hns]
    rw [ih (s + 1) (by omega)]
    cases n with
    | zero => simp [optMin]
    | succ n =>
      simp only [Nat.succ_ne_zero, if_false, optMin]
      rw [Nat.min_eq_left (by omega)]

lemma catalogFrom_noncompleted_min (n s k : Nat) (h1 : s ≤ k + 1)
    (h2 : k + 1 < s + n) :
    (((catalogFrom s n k).filterMap
      (fun p => if p.2.status = .completed then none else some p.1)).foldr
      optMin none) = some (k + 1) := by
  induction n generalizing s with
  | zero => omega
  | succ n ih =>
    rw [show catalogFrom s (n + 1) k
        = catalogRow s k :: catalogFrom (s + 1) n k from rfl]
    by_cases hs : s ≤ k
    · simp only [List.filterMap_cons]
      simp [catalogRow, hs]
      exact ih (s + 1) (by omega) (by omega)
    · have h0 : s = k + 1 := by omega
      simp [catalogRow, hs]
      rw [catalogFrom_noncompleted_all n (s + 1) k (by omega)]
      cases n with
      | zero => simp [optMin, h0]
      | succ n =>
        simp only [Nat.succ_ne_zero, if_false, optMin]
        rw [Nat.min_eq_left (by omega), h0]

/-- C3: corrected.  `get_overall_progress` computes `current_level` as
1 plus the highest completed level (`max(..., default=0) + 1`) without
checking that the lower levels are completed, so it is not in general the
smallest non-Completed level.  The two agree on prefix-completed
catalogs: when the catalog is levels 1..n and exactly levels 1..k are
completed (k < n), `current_level` is k+1, which is also the smallest
non-completed level. -/
theorem C3_next_level (n k : Nat) (hk : k < n) :
    (get_overall_progress (mkCatalog n k)).current_level = k + 1 ∧
    nextLevelSpec (mkCatalog n k) = k + 1 := by
  constructor
  · simp only [get_overall_progress, completedLevels, mkCatalog]
    rw [catalogFrom_foldl_max n 1 k 0 (by omega) (by omega)]
    by_cases h1 : 1 ≤ k
    · simp [h1]
    · have hk0 : k = 0 := by omega
      simp [h1, hk0]
  · have hmin := catalogFrom_noncompleted_min n 1 k (by omega) (by omega)
    simp [nextLevelSpec, nonCompletedLevels, mkCatalog, hmin]

/-- C3 witness: a catalog of five levels with levels 1..3 completed —
`current_level` is 4, the smallest non-completed level. -/
theorem C3_next_level_witness :
    (3 : Nat) < 5 ∧
    ((get_overall_progress (mkCatalog 5 3)).current_level = 3 + 1 ∧
     nextLevelSpec (mkCatalog 5 3) = 3 + 1) :=
  ⟨by decide, C3_next_level 5 3 (by decide)⟩

/-- C3 counterexample: with level 1 not started and level 2 completed,
the smallest non-Completed level is 1 but `get_overall_progress` reports
`current_level = 3`. -/
theorem C3_counterexample :
    (get_overall_progress mgrC3).current_level = 3 ∧
    nextLevelSpec mgrC3 = 1 ∧ (3 : Nat) ≠ 1 := by decide

/-! C5. -/

/-- C5: corrected.  In sequence mode the orchestrator emits
`sequence_started`, one `challenge_metrics` event per attempted level
(carrying the success flag), and `sequence_failed` when a level fails;
the `challenge_started`/`challenge_completed`/`challenge_failed` events
of the claim exist only in the single-challenge worker and are never
emitted by a sequence run.  With level 1 succeeding and level 2 failing,
the emitted sequence is exactly `sequence_started,
challenge_metrics(1, success), challenge_metrics(2, failure),
sequence_failed(2)`, the orchestrator ends in state Error, and level 3 is
never run (its challenge object is untouched). -/
theorem C5_sequence_events (c1 c2 c3 : Challenge)
    (h1 : (execute c1).success = true)
    (h2 : (execute c2).success = false)
    (hp1 : c1.prerequisites = [])
    (hp2 : c2.prerequisites = [1]) :
    (executeChallengeSequence
        (mkSystem { challenges := [(1, c1), (2, c2), (3, c3)],
                    challenge_logs := [] }) 1 3).map
      (fun s => (s.event_queue.map (fun e => (e.etype, e.level, e.success)),
                 s.state, lookupChallenge s.manager.challenges 3))
      = some ([("sequence_started", none, none),
               ("challenge_metrics", some 1, some true),
               ("challenge_metrics", some 2, some false),
               ("sequence_failed", some 2, none)],
              SysState.error, some c3) := by
  have hr : List.range' 1 (3 + 1 - 1) = [1, 2, 3] := by decide
  simp only [executeChallengeSequence, hr]
  simp [seqLoop, executeChallengeWithMonitoring, run_challenge, mkSystem,
        lookupChallenge, checkPrerequisites, hp1, hp2, logChallengeEvent,
        updateChallenge, emitSysEvent, queuePut, h1, h2]

/-- C5 witness: the concrete fixture — level 1 one successful step,
level 2 one failing step, level 3 present but never reached. -/
theorem C5_sequence_events_witness :
    (execute (chOk 1 [])).success = true ∧
    (execute (chBad 2 [1])).success = false ∧
    (chOk 1 []).prerequisites = [] ∧
    (chBad 2 [1]).prerequisites = [1] ∧
    ((executeChallengeSequence
        (mkSystem { challenges := [(1, chOk 1 []), (2, chBad 2 [1]),
                                   (3, chOk 3 [2])],
                    challenge_logs := [] }) 1 3).map
      (fun s => (s.event_queue.map (fun e => (e.etype, e.level, e.success)),
                 s.state, lookupChallenge s.manager.challenges 3))
      = some ([("sequence_started", none, none),
               ("challenge_metrics", some 1, some true),
               ("challenge_metrics", some 2, some false),
               ("sequence_failed", some 2, none)],
              SysState.error, some (chOk 3 [2]))) :=
  ⟨by decide, by decide, by decide, by decide,
   C5_sequence_events (chOk 1 []) (chBad 2 [1]) (chOk 3 [2])
     (by decide) (by decide) (by decide) (by decide)⟩

/-- C5 counterexample: the event sequence the fixture run actually emits
differs from the `sequence_started, challenge_started(1),
challenge_completed(1), challenge_started(2), challenge_failed(2),
sequence_failed` sequence the claim specifies. -/
theorem C5_counterexample :
    (executeChallengeSequence sysC5 1 3).map
      (fun s => s.event_queue.map (fun e => (e.etype, e.level)))
      = some [("sequence_started", none), ("challenge_metrics", some 1),
              ("challenge_metrics", some 2), ("sequence_failed", some 2)] ∧
    (executeChallengeSequence sysC5 1 3).map
      (fun s => s.event_queue.map (fun e => (e.etype, e.level)))
      ≠ some claimedC5Events := by decide

end AutomationToolkit
